import Mathlib

/-!
Verification of the process-supervision core of the Gtop streaming backend
(`src/server/server.js`).

The server keeps four module-level mutable references: `streamProcess`
(FFmpeg encoder), `xvfbProcess` (virtual display), `browserProcess`
(Puppeteer renderer) and `lastStreamError`.  We embed that mutable state as
an explicit `ServerState` record and each route handler / event handler as a
pure function from state (plus the outcomes of the external operations it
performs) to state, response and a trace of observable events.

JavaScript truthiness on the relevant values is modelled explicitly:
an empty string is falsy (`jsFalsy`), a null-or-empty error slot is falsy
(`jsFalsyOpt`), and `String.prototype.includes` / `startsWith` are modelled
on the character lists of the strings.
-/

namespace Gtop

/-- Substring scan: does `hay` contain `needle` as a
contiguous substring?  Mirrors `String.prototype.includes` on char lists. -/
def containsSub (needle : List Char) : List Char → Bool
  | [] => needle.isEmpty
  | h :: t => needle.isPrefixOf (h :: t) || containsSub needle t

/-- JS `hay.includes(needle)`. -/
def jsIncludes (hay needle : String) : Bool :=
  containsSub needle.data hay.data

/-- JS `s.startsWith(pre)`. -/
def jsStartsWith (s pre : String) : Bool :=
  pre.data.isPrefixOf s.data

/-- JS falsiness of a string value (`!s` for a string): true exactly on `""`. -/
def jsFalsy (s : String) : Bool :=
  s.data.isEmpty

/-- JS falsiness of the nullable `lastStreamError` slot: `null` or `""`. -/
def jsFalsyOpt : Option String → Bool
  | none => true
  | some s => s.data.isEmpty

/-- The module-level mutable state of `server.js`: the three process
references and the recorded error. -/
structure ServerState where
  streamProcess : Option Nat
  xvfbProcess : Option Nat
  browserProcess : Option Nat
  lastStreamError : Option String
deriving DecidableEq, Repr

/-- Constant `DISPLAY_NUM` of the server, the display identifier `:99`. -/
def DISPLAY_NUM : String := ":99"

/-- Constant `SCREEN_RES` of the server, the capture resolution. -/
def SCREEN_RES : String := "1920x1080"

/-- The observable teardown steps of `cleanup()`: SIGKILL of FFmpeg,
graceful browser close (recording whether the close raised, which the code
catches and logs), SIGKILL of Xvfb, and the unconditional
`pkill -f "Xvfb :99"` sweep. -/
inductive CleanupAction where
  | killEncoder (pid : Nat)
  | closeBrowser (err : Option String)
  | killDisplay (pid : Nat)
  | sweepStray
deriving DecidableEq, Repr

/-- Teardown `cleanup()` from `server.js`: kill FFmpeg if held and clear the handle;
close the browser if held (a close error is caught and only logged) and
clear the handle; kill Xvfb if held and clear the handle; finally the
unconditional stray-display sweep.  `closeErr` is the environment outcome of
the browser close call (`none` = closed cleanly). -/
def cleanup (closeErr : Option String) (s : ServerState) :
    ServerState × List CleanupAction :=
  let r1 : ServerState × List CleanupAction :=
    match s.streamProcess with
    | some pid => ({ s with streamProcess := none }, [CleanupAction.killEncoder pid])
    | none => (s, [])
  let r2 : ServerState × List CleanupAction :=
    match r1.1.browserProcess with
    | some _ => ({ r1.1 with browserProcess := none },
                 r1.2 ++ [CleanupAction.closeBrowser closeErr])
    | none => r1
  let r3 : ServerState × List CleanupAction :=
    match r2.1.xvfbProcess with
    | some pid => ({ r2.1 with xvfbProcess := none },
                   r2.2 ++ [CleanupAction.killDisplay pid])
    | none => r2
  (r3.1, r3.2 ++ [CleanupAction.sweepStray])

/-- The fixed fault-signature list tested against each chunk of FFmpeg
stderr output (`criticalErrors` in `server.js`). -/
def criticalErrors : List String :=
  ["Authentication failed",
   "Connection refused",
   "Server error",
   "Input/output error",
   "Already publishing"]

/-- Fault classification of one output chunk: the first signature
in list order contained in the output chunk. -/
def matchSig (output : String) : Option String :=
  criticalErrors.find? (fun e => jsIncludes output e)

/-- The data handler attached to the encoder stderr stream: if the chunk contains a
fault signature, record `lastStreamError = "Stream failed: " + signature`
and run `cleanup()`; otherwise do nothing.  The boolean reports whether
cleanup was triggered by this chunk. -/
def onStderrData (closeErr : Option String) (s : ServerState) (output : String) :
    ServerState × Bool :=
  match matchSig output with
  | some e =>
      ((cleanup closeErr { s with lastStreamError := some ("Stream failed: " ++ e) }).1,
       true)
  | none => (s, false)

/-- Deliver a sequence of stderr chunks to the data handler in order,
counting how many of them triggered cleanup. -/
def processStderr (closeErr : Option String) (s : ServerState) :
    List String → ServerState × Nat
  | [] => (s, 0)
  | line :: rest =>
      let r := onStderrData closeErr s line
      let rr := processStderr closeErr r.1 rest
      (rr.1, (if r.2 then 1 else 0) + rr.2)

/-- JS template interpolation of the nullable exit code: `null` prints as
`"null"`, a number prints in decimal. -/
def codeStr : Option Int → String
  | none => "null"
  | some n => toString n

/-- The close handler attached to the encoder process: if the code is not exactly `0`
(a `null` code from a signal kill included) and `lastStreamError` is falsy,
record the generic exit message; then run `cleanup()` unconditionally. -/
def onClose (closeErr : Option String) (s : ServerState) (code : Option Int) :
    ServerState × List CleanupAction :=
  let exitMsg := "FFmpeg exited unexpectedly with code " ++ codeStr code
  let s1 :=
    if code ≠ some 0 ∧ jsFalsyOpt s.lastStreamError = true then
      { s with lastStreamError := some exitMsg }
    else s
  cleanup closeErr s1

/-- Target resolution from `server.js`:
the key is used verbatim when it starts with `rtmp`, and is otherwise
appended to `rtmp://a.rtmp.youtube.com/live2/`. -/
def rtmpUrl (streamKey : String) : String :=
  if jsStartsWith streamKey "rtmp" then streamKey
  else "rtmp://a.rtmp.youtube.com/live2/" ++ streamKey

/-- The scheme the spec calls the scheme of the streaming protocol. -/
def streamScheme : String := "rtmp"

/-- The fixed default ingest endpoint the spec refers to. -/
def defaultIngestEndpoint : String := "rtmp://a.rtmp.youtube.com/live2/"

/-- Target resolution as worded by the spec: use the target verbatim when it
begins with the scheme of the streaming protocol, otherwise append it as a key
suffix to the fixed default ingest endpoint.  Stated separately so the code
definition `rtmpUrl` can be proved to refine it. -/
def resolveTargetSpec (streamTarget : String) : String :=
  if jsStartsWith streamTarget streamScheme then streamTarget
  else defaultIngestEndpoint ++ streamTarget

/-- The fixed part of `ffmpegArgs` (everything before the output URL). -/
def ffmpegFixedArgs : List String :=
  ["-f", "x11grab",
   "-draw_mouse", "0",
   "-s", SCREEN_RES,
   "-framerate", "30",
   "-i", DISPLAY_NUM ++ ".0",
   "-f", "lavfi",
   "-i", "anullsrc=channel_layout=stereo:sample_rate=44100",
   "-c:v", "libx264",
   "-preset", "veryfast",
   "-maxrate", "3000k",
   "-bufsize", "6000k",
   "-pix_fmt", "yuv420p",
   "-g", "60",
   "-c:a", "aac",
   "-b:a", "128k",
   "-ar", "44100",
   "-f", "flv"]

/-- The full FFmpeg argument vector for a resolved target URL. -/
def ffmpegArgs (url : String) : List String :=
  ffmpegFixedArgs ++ [url]

/-- The JSON body of `GET /api/status`. -/
structure StatusResponse where
  active : Bool
  error : Option String
deriving DecidableEq, Repr

/-- Route `GET /api/status`: activity is the truthiness of the encoder
handle, error is the recorded error. -/
def apiStatus (s : ServerState) : StatusResponse :=
  { active := s.streamProcess.isSome, error := s.lastStreamError }

/-- Route `POST /api/stop`: runs `cleanup()` and always responds with success. -/
def apiStop (closeErr : Option String) (s : ServerState) :
    ServerState × List CleanupAction :=
  cleanup closeErr s

/-- The possible responses of `POST /api/start`:
400 "Stream is already running", 400 "Missing streamKey or htmlContent",
200 success, or 500 with the caught error message. -/
inductive StartResponse where
  | alreadyRunning
  | missingFields
  | ok
  | startError (msg : String)
deriving DecidableEq, Repr

/-- Observable events of one `POST /api/start` handler execution, in program
order: the HTML write, each process spawn (the FFmpeg spawn keeps its
argument vector), each `cleanup()` run with its actions, and the HTTP
response. -/
inductive Event where
  | writeHtml
  | spawnXvfb (pid : Nat)
  | launchBrowser (pid : Nat)
  | spawnFfmpeg (pid : Nat) (args : List String)
  | cleanupRun (actions : List CleanupAction)
  | respond (r : StartResponse)
deriving DecidableEq, Repr

/-- Environment outcomes of the external operations performed inside the
`try` block of `/api/start`, in the order the code performs them:
the HTML write, the display spawn, the browser launch, the page
setup (new page, viewport, navigation, script), and the encoder spawn.
An `error msg` outcome means the operation threw with that message and the
`catch` block takes over.  `closeErr` is the browser-close outcome seen by
any `cleanup()` run. -/
structure StartOutcomes where
  writeHtml : Except String Unit
  spawnXvfb : Except String Nat
  launchBrowser : Except String Nat
  pageSetup : Except String Unit
  spawnFfmpeg : Except String Nat
  closeErr : Option String

/-- The result of one `/api/start` handler execution.  `waitStates` lists
the server state at each `await` suspension point that was reached (the
Xvfb warm-up delay, the `puppeteer.launch` await, and the page-setup
awaits): at such a point the single-threaded event loop may run another
request against exactly that state. -/
structure StartRun where
  waitStates : List ServerState
  state : ServerState
  response : StartResponse
  events : List Event

/-- The `catch` block of `/api/start`: record `lastStreamError =
error.message`, `await cleanup()`, respond 500 with the message. -/
def failStart (closeErr : Option String) (s : ServerState) (msg : String)
    (waits : List ServerState) (evs : List Event) : StartRun :=
  let c := cleanup closeErr { s with lastStreamError := some msg }
  { waitStates := waits,
    state := c.1,
    response := .startError msg,
    events := evs ++ [Event.cleanupRun c.2, Event.respond (.startError msg)] }

/-- Route `POST /api/start`: reject with 400 if `streamProcess` is truthy; reject
with 400 if `streamKey` or `htmlContent` is falsy; otherwise clear
`lastStreamError` and run the startup sequence, aborting to the `catch`
block at the first throwing step. -/
def apiStart (s : ServerState) (streamKey htmlContent : String)
    (env : StartOutcomes) : StartRun :=
  if s.streamProcess.isSome then
    { waitStates := [], state := s, response := .alreadyRunning,
      events := [Event.respond .alreadyRunning] }
  else if jsFalsy streamKey || jsFalsy htmlContent then
    { waitStates := [], state := s, response := .missingFields,
      events := [Event.respond .missingFields] }
  else
    let s0 := { s with lastStreamError := none }
    match env.writeHtml with
    | .error msg => failStart env.closeErr s0 msg [] []
    | .ok _ =>
      match env.spawnXvfb with
      | .error msg => failStart env.closeErr s0 msg [] [Event.writeHtml]
      | .ok xpid =>
        let s1 := { s0 with xvfbProcess := some xpid }
        match env.launchBrowser with
        | .error msg =>
            failStart env.closeErr s1 msg [s1, s1]
              [Event.writeHtml, Event.spawnXvfb xpid]
        | .ok bpid =>
          let s2 := { s1 with browserProcess := some bpid }
          match env.pageSetup with
          | .error msg =>
              failStart env.closeErr s2 msg [s1, s1, s2]
                [Event.writeHtml, Event.spawnXvfb xpid, Event.launchBrowser bpid]
          | .ok _ =>
            match env.spawnFfmpeg with
            | .error msg =>
                failStart env.closeErr s2 msg [s1, s1, s2]
                  [Event.writeHtml, Event.spawnXvfb xpid, Event.launchBrowser bpid]
            | .ok fpid =>
                { waitStates := [s1, s1, s2],
                  state := { s2 with streamProcess := some fpid },
                  response := .ok,
                  events := [Event.writeHtml, Event.spawnXvfb xpid,
                             Event.launchBrowser bpid,
                             Event.spawnFfmpeg fpid (ffmpegArgs (rtmpUrl streamKey)),
                             Event.respond .ok] }

/-- Is this event a process spawn? -/
def isSpawnEvent : Event → Bool
  | .spawnXvfb _ => true
  | .launchBrowser _ => true
  | .spawnFfmpeg _ _ => true
  | _ => false

/-- The process-spawn events of a trace. -/
def spawnEvents (evs : List Event) : List Event :=
  evs.filter isSpawnEvent

/-- Does the trace spawn the Xvfb display? -/
def hasXvfbSpawn : List Event → Bool
  | [] => false
  | .spawnXvfb _ :: _ => true
  | _ :: rest => hasXvfbSpawn rest

/-- Does the trace launch the browser? -/
def hasBrowserLaunch : List Event → Bool
  | [] => false
  | .launchBrowser _ :: _ => true
  | _ :: rest => hasBrowserLaunch rest

/-- Does the trace spawn the FFmpeg encoder? -/
def hasFfmpegSpawn : List Event → Bool
  | [] => false
  | .spawnFfmpeg _ _ :: _ => true
  | _ :: rest => hasFfmpegSpawn rest

/-- Did the operation succeed? -/
def exceptOk {ε α : Type} : Except ε α → Bool
  | .ok _ => true
  | .error _ => false

/-- The message of the first startup step that throws, in program order. -/
def firstFailMsg (env : StartOutcomes) : Option String :=
  match env.writeHtml with
  | .error m => some m
  | .ok _ =>
    match env.spawnXvfb with
    | .error m => some m
    | .ok _ =>
      match env.launchBrowser with
      | .error m => some m
      | .ok _ =>
        match env.pageSetup with
        | .error m => some m
        | .ok _ =>
          match env.spawnFfmpeg with
          | .error m => some m
          | .ok _ => none

/-- The idle server state: no process references, no recorded error. -/
def idleState : ServerState :=
  { streamProcess := none, xvfbProcess := none, browserProcess := none,
    lastStreamError := none }

/-- An active session: encoder, display and renderer all held, no error. -/
def activeState : ServerState :=
  { streamProcess := some 7, xvfbProcess := some 8, browserProcess := some 9,
    lastStreamError := none }

/-- An environment in which every external startup operation succeeds. -/
def happyEnv : StartOutcomes :=
  { writeHtml := .ok (), spawnXvfb := .ok 11, launchBrowser := .ok 22,
    pageSetup := .ok (), spawnFfmpeg := .ok 33, closeErr := none }

/-- The server state during the fixed display warm-up delay of a start on an
idle session under `happyEnv`: the display is live, the encoder is not. -/
def midStartState : ServerState :=
  { streamProcess := none, xvfbProcess := some 11, browserProcess := none,
    lastStreamError := none }

/-- The teardown actions of the encoder step of `cleanup()`. -/
def encActions (s : ServerState) : List CleanupAction :=
  match s.streamProcess with
  | some p => [CleanupAction.killEncoder p]
  | none => []

/-- The teardown actions of the browser step of `cleanup()`. -/
def browserActions (cerr : Option String) (s : ServerState) : List CleanupAction :=
  match s.browserProcess with
  | some _ => [CleanupAction.closeBrowser cerr]
  | none => []

/-- The teardown actions of the display step of `cleanup()`. -/
def displayActions (s : ServerState) : List CleanupAction :=
  match s.xvfbProcess with
  | some p => [CleanupAction.killDisplay p]
  | none => []

lemma cleanup_fst (cerr : Option String) (s : ServerState) :
    (cleanup cerr s).1 =
      { streamProcess := none, xvfbProcess := none, browserProcess := none,
        lastStreamError := s.lastStreamError } := by
  obtain ⟨sp, xp, bp, le⟩ := s
  cases sp <;> cases xp <;> cases bp <;> simp [cleanup]

lemma cleanup_snd (cerr : Option String) (s : ServerState) :
    (cleanup cerr s).2 =
      encActions s ++ browserActions cerr s ++ displayActions s
        ++ [CleanupAction.sweepStray] := by
  obtain ⟨sp, xp, bp, le⟩ := s
  cases sp <;> cases xp <;> cases bp <;>
    simp [cleanup, encActions, browserActions, displayActions]

lemma cleanup_sweep (cerr : Option String) (s : ServerState) :
    CleanupAction.sweepStray ∈ (cleanup cerr s).2 := by
  rw [cleanup_snd]
  simp

lemma containsSub_self (l : List Char) : containsSub l l = true := by
  cases l with
  | nil => rfl
  | cons h t => simp [containsSub, List.isPrefixOf_iff_prefix]

lemma containsSub_append (xs l : List Char) : containsSub l (xs ++ l) = true := by
  induction xs with
  | nil => simpa using containsSub_self l
  | cons h t ih => simp [containsSub, ih]

lemma jsIncludes_append_left (a b : String) : jsIncludes (a ++ b) b = true := by
  simp [jsIncludes, String.data_append, containsSub_append]

lemma exit_msg_contains (x : String) :
    jsIncludes ("FFmpeg exited unexpectedly with code " ++ x)
      ("exited unexpectedly with code " ++ x) = true := by
  have h0 : ("FFmpeg exited unexpectedly with code " : String).data
      = ("FFmpeg " : String).data ++ ("exited unexpectedly with code " : String).data := by
    decide
  unfold jsIncludes
  rw [String.data_append, String.data_append, h0, List.append_assoc]
  exact containsSub_append _ _

/-- C7: `cleanup()` always succeeds (it is a total function of the state and
the browser-close outcome), its resulting state does not depend on a
browser-close error, it is idempotent, it tears down encoder then renderer
then display with each step guarded on handle presence, it clears every
handle, an action on a resource occurs exactly when that handle is held, and
with no resources held it is a no-op apart from the stray-display sweep. -/
theorem cleanup_properties (cerr cerr2 : Option String) (s : ServerState) :
    ((cleanup cerr s).1 =
        { streamProcess := none, xvfbProcess := none, browserProcess := none,
          lastStreamError := s.lastStreamError } ∧
      (cleanup cerr s).1 = (cleanup cerr2 s).1) ∧
    (cleanup cerr ((cleanup cerr2 s).1) =
      ({ streamProcess := none, xvfbProcess := none, browserProcess := none,
         lastStreamError := s.lastStreamError }, [CleanupAction.sweepStray])) ∧
    ((∀ p, CleanupAction.killEncoder p ∈ (cleanup cerr s).2 ↔ s.streamProcess = some p) ∧
      (∀ e, CleanupAction.closeBrowser e ∈ (cleanup cerr s).2 ↔
        (s.browserProcess.isSome = true ∧ e = cerr)) ∧
      (∀ p, CleanupAction.killDisplay p ∈ (cleanup cerr s).2 ↔ s.xvfbProcess = some p) ∧
      CleanupAction.sweepStray ∈ (cleanup cerr s).2) ∧
    ((cleanup cerr s).2 =
      encActions s ++ browserActions cerr s ++ displayActions s
        ++ [CleanupAction.sweepStray]) ∧
    (s.streamProcess = none → s.browserProcess = none → s.xvfbProcess = none →
      cleanup cerr s = (s, [CleanupAction.sweepStray])) := by
  refine ⟨⟨cleanup_fst cerr s, (cleanup_fst cerr s).trans (cleanup_fst cerr2 s).symm⟩,
    ?_, ⟨?_, ?_, ?_, cleanup_sweep cerr s⟩, cleanup_snd cerr s, ?_⟩
  · rw [cleanup_fst cerr2 s]
    refine Prod.ext ?_ ?_
    · rw [cleanup_fst]
    · rw [cleanup_snd]
      rfl
  · intro p
    rw [cleanup_snd]
    obtain ⟨sp, xp, bp, le⟩ := s
    cases sp <;> cases xp <;> cases bp <;>
      simp [encActions, browserActions, displayActions, eq_comm]
  · intro e
    rw [cleanup_snd]
    obtain ⟨sp, xp, bp, le⟩ := s
    cases sp <;> cases xp <;> cases bp <;>
      simp [encActions, browserActions, displayActions, eq_comm]
  · intro p
    rw [cleanup_snd]
    obtain ⟨sp, xp, bp, le⟩ := s
    cases sp <;> cases xp <;> cases bp <;>
      simp [encActions, browserActions, displayActions, eq_comm]
  · intro h1 h2 h3
    obtain ⟨sp, xp, bp, le⟩ := s
    simp only at h1 h2 h3
    subst h1
    subst h2
    subst h3
    rfl

/-- C7 witness: on the idle state, `cleanup()` is a no-op apart from the
stray-display sweep. -/
theorem cleanup_properties_witness :
    idleState.streamProcess = none ∧
    cleanup none idleState = (idleState, [CleanupAction.sweepStray]) := by
  have h := cleanup_properties none none idleState
  exact ⟨rfl, h.2.2.2.2 rfl rfl rfl⟩

/-- C3: the encoder target URL is the stream target verbatim when it begins
with the streaming protocol scheme, and otherwise the fixed default ingest
endpoint with the target appended as a key suffix; in particular the two
concrete resolutions the spec lists hold. -/
theorem rtmpUrl_matches_spec :
    (∀ t : String, rtmpUrl t = resolveTargetSpec t) ∧
    rtmpUrl "rtmp://example.com/live2/KEY" = "rtmp://example.com/live2/KEY" ∧
    rtmpUrl "KEY" = defaultIngestEndpoint ++ "KEY" := by
  refine ⟨fun t => rfl, by decide, by decide⟩

/-- C1 (amended): a `start()` request is rejected with AlreadyActive, with
the state untouched and no process spawned, exactly when the encoder handle
is already held (session Active); the guard does not inspect any
Starting-phase condition. -/
theorem start_rejected_when_active (s : ServerState) (p : Nat)
    (key content : String) (env : StartOutcomes)
    (h : s.streamProcess = some p) :
    (apiStart s key content env).response = .alreadyRunning ∧
    (apiStart s key content env).state = s ∧
    spawnEvents (apiStart s key content env).events = [] := by
  simp [apiStart, h, spawnEvents, isSpawnEvent]

/-- C1 witness: with an active session, a concrete `start()` request is
rejected as AlreadyActive with no spawn. -/
theorem start_rejected_when_active_witness :
    activeState.streamProcess = some 7 ∧
    ((apiStart activeState "k" "c" happyEnv).response = .alreadyRunning ∧
      (apiStart activeState "k" "c" happyEnv).state = activeState ∧
      spawnEvents (apiStart activeState "k" "c" happyEnv).events = []) :=
  ⟨rfl, start_rejected_when_active activeState 7 "k" "c" happyEnv rfl⟩

/-- C1 counterexample: the state during the display warm-up delay of a
start on an idle session is Starting (display live, encoder not spawned),
yet a second `start()` arriving at that suspension point is not rejected:
it responds success and spawns three further processes. -/
theorem start_not_rejected_while_starting :
    (apiStart idleState "KEY" "<p>hi</p>" happyEnv).waitStates[0]? = some midStartState ∧
    midStartState.streamProcess = none ∧
    midStartState.xvfbProcess = some 11 ∧
    (apiStart midStartState "KEY" "<p>hi</p>" happyEnv).response = .ok ∧
    (apiStart midStartState "KEY" "<p>hi</p>" happyEnv).response ≠ .alreadyRunning ∧
    spawnEvents (apiStart midStartState "KEY" "<p>hi</p>" happyEnv).events ≠ [] := by
  decide

/-- C5 (amended): when no session is active, a `start()` request with an
empty `streamTarget` or empty `content` is rejected with InvalidRequest, no
process is spawned and the whole state, `lastStreamError` included, is left
unchanged.  (When a session is active the AlreadyActive guard fires first.) -/
theorem start_rejects_empty_fields (s : ServerState) (key content : String)
    (env : StartOutcomes) (hs : s.streamProcess = none)
    (h : (jsFalsy key || jsFalsy content) = true) :
    (apiStart s key content env).response = .missingFields ∧
    (apiStart s key content env).state = s ∧
    (apiStart s key content env).state.lastStreamError = s.lastStreamError ∧
    spawnEvents (apiStart s key content env).events = [] := by
  simp [apiStart, hs, h, spawnEvents, isSpawnEvent]

/-- C5 witness: on the idle state, a request with an empty stream target is
rejected as InvalidRequest with the state unchanged. -/
theorem start_rejects_empty_fields_witness :
    idleState.streamProcess = none ∧ (jsFalsy "" || jsFalsy "c") = true ∧
    ((apiStart idleState "" "c" happyEnv).response = .missingFields ∧
      (apiStart idleState "" "c" happyEnv).state = idleState ∧
      (apiStart idleState "" "c" happyEnv).state.lastStreamError = idleState.lastStreamError ∧
      spawnEvents (apiStart idleState "" "c" happyEnv).events = []) :=
  ⟨rfl, by decide, start_rejects_empty_fields idleState "" "c" happyEnv rfl (by decide)⟩

/-- C5 counterexample: with a session already active, a request with empty
fields is rejected as AlreadyActive, not as InvalidRequest, so the claim as
universally stated fails. -/
theorem start_empty_fields_active_not_invalid :
    jsFalsy "" = true ∧
    (apiStart activeState "" "" happyEnv).response = .alreadyRunning ∧
    (apiStart activeState "" "" happyEnv).response ≠ .missingFields := by
  decide

/-- An environment in which the browser launch throws and everything else
would succeed. -/
def failEnv : StartOutcomes :=
  { writeHtml := .ok (), spawnXvfb := .ok 11, launchBrowser := .error "Launch boom",
    pageSetup := .ok (), spawnFfmpeg := .ok 33, closeErr := none }

/-- C4: when some step of the startup sequence throws, the request fails
with that message, the message is recorded in `lastStreamError`, every
handle is cleared, the encoder is never spawned, a step after the failing
one never begins (a spawn event exists exactly when every step before it
succeeded), and the trace ends with a full cleanup run followed by the
error response — cleanup happens before the failure is surfaced. -/
theorem start_failure_aborts_and_cleans (s : ServerState) (key content : String)
    (env : StartOutcomes) (msg : String)
    (hs : s.streamProcess = none) (hk : jsFalsy key = false)
    (hc : jsFalsy content = false) (hf : firstFailMsg env = some msg) :
    (apiStart s key content env).response = .startError msg ∧
    (apiStart s key content env).state.lastStreamError = some msg ∧
    (apiStart s key content env).state.streamProcess = none ∧
    (apiStart s key content env).state.xvfbProcess = none ∧
    (apiStart s key content env).state.browserProcess = none ∧
    hasFfmpegSpawn (apiStart s key content env).events = false ∧
    hasBrowserLaunch (apiStart s key content env).events =
      (exceptOk env.writeHtml && exceptOk env.spawnXvfb && exceptOk env.launchBrowser) ∧
    hasXvfbSpawn (apiStart s key content env).events =
      (exceptOk env.writeHtml && exceptOk env.spawnXvfb) ∧
    (∃ pre acts, (apiStart s key content env).events =
      pre ++ [Event.cleanupRun acts, Event.respond (.startError msg)]) := by
  obtain ⟨w, x, l, pg, f, ce⟩ := env
  cases w with
  | error m =>
    simp only [firstFailMsg] at hf
    obtain rfl : m = msg := by simpa using hf
    have hrun : apiStart s key content ⟨.error m, x, l, pg, f, ce⟩ =
        failStart ce { s with lastStreamError := none } m [] [] := by
      simp [apiStart, hs, hk, hc]
    rw [hrun]
    refine ⟨rfl, ?_, ?_, ?_, ?_, ?_, ?_, ?_, ⟨[], _, rfl⟩⟩ <;>
      simp [failStart, cleanup_fst, exceptOk,
        hasFfmpegSpawn, hasBrowserLaunch, hasXvfbSpawn]
  | ok u =>
    cases x with
    | error m =>
      simp only [firstFailMsg] at hf
      obtain rfl : m = msg := by simpa using hf
      have hrun : apiStart s key content ⟨.ok u, .error m, l, pg, f, ce⟩ =
          failStart ce { s with lastStreamError := none } m [] [Event.writeHtml] := by
        simp [apiStart, hs, hk, hc]
      rw [hrun]
      refine ⟨rfl, ?_, ?_, ?_, ?_, ?_, ?_, ?_, ⟨[Event.writeHtml], _, rfl⟩⟩ <;>
        simp [failStart, cleanup_fst, exceptOk,
          hasFfmpegSpawn, hasBrowserLaunch, hasXvfbSpawn]
    | ok xpid =>
      cases l with
      | error m =>
        simp only [firstFailMsg] at hf
        obtain rfl : m = msg := by simpa using hf
        have hrun : apiStart s key content ⟨.ok u, .ok xpid, .error m, pg, f, ce⟩ =
            failStart ce { s with lastStreamError := none, xvfbProcess := some xpid } m
              [{ s with lastStreamError := none, xvfbProcess := some xpid },
               { s with lastStreamError := none, xvfbProcess := some xpid }]
              [Event.writeHtml, Event.spawnXvfb xpid] := by
          simp [apiStart, hs, hk, hc]
        rw [hrun]
        refine ⟨rfl, ?_, ?_, ?_, ?_, ?_, ?_, ?_,
            ⟨[Event.writeHtml, Event.spawnXvfb xpid], _, rfl⟩⟩ <;>
          simp [failStart, cleanup_fst, exceptOk,
            hasFfmpegSpawn, hasBrowserLaunch, hasXvfbSpawn]
      | ok bpid =>
        cases pg with
        | error m =>
          simp only [firstFailMsg] at hf
          obtain rfl : m = msg := by simpa using hf
          have hrun : apiStart s key content ⟨.ok u, .ok xpid, .ok bpid, .error m, f, ce⟩ =
              failStart ce
                { s with lastStreamError := none, xvfbProcess := some xpid, browserProcess := some bpid }
                m
                [{ s with lastStreamError := none, xvfbProcess := some xpid },
                 { s with lastStreamError := none, xvfbProcess := some xpid },
                 { s with lastStreamError := none, xvfbProcess := some xpid, browserProcess := some bpid }]
                [Event.writeHtml, Event.spawnXvfb xpid, Event.launchBrowser bpid] := by
            simp [apiStart, hs, hk, hc]
          rw [hrun]
          refine ⟨rfl, ?_, ?_, ?_, ?_, ?_, ?_, ?_,
              ⟨[Event.writeHtml, Event.spawnXvfb xpid, Event.launchBrowser bpid], _, rfl⟩⟩ <;>
            simp [failStart, cleanup_fst, exceptOk,
              hasFfmpegSpawn, hasBrowserLaunch, hasXvfbSpawn]
        | ok pu =>
          cases f with
          | error m =>
            simp only [firstFailMsg] at hf
            obtain rfl : m = msg := by simpa using hf
            have hrun : apiStart s key content ⟨.ok u, .ok xpid, .ok bpid, .ok pu, .error m, ce⟩ =
                failStart ce
                  { s with lastStreamError := none, xvfbProcess := some xpid, browserProcess := some bpid }
                  m
                  [{ s with lastStreamError := none, xvfbProcess := some xpid },
                   { s with lastStreamError := none, xvfbProcess := some xpid },
                   { s with lastStreamError := none, xvfbProcess := some xpid, browserProcess := some bpid }]
                  [Event.writeHtml, Event.spawnXvfb xpid, Event.launchBrowser bpid] := by
              simp [apiStart, hs, hk, hc]
            rw [hrun]
            refine ⟨rfl, ?_, ?_, ?_, ?_, ?_, ?_, ?_,
                ⟨[Event.writeHtml, Event.spawnXvfb xpid, Event.launchBrowser bpid], _, rfl⟩⟩ <;>
              simp [failStart, cleanup_fst, exceptOk,
                hasFfmpegSpawn, hasBrowserLaunch, hasXvfbSpawn]
          | ok fpid =>
            simp [firstFailMsg] at hf

/-- C4 witness: with a browser-launch failure, the concrete request responds
with that error, records it, and never spawns the encoder. -/
theorem start_failure_aborts_and_cleans_witness :
    firstFailMsg failEnv = some "Launch boom" ∧
    (apiStart idleState "k" "c" failEnv).response = .startError "Launch boom" ∧
    (apiStart idleState "k" "c" failEnv).state.lastStreamError = some "Launch boom" ∧
    hasFfmpegSpawn (apiStart idleState "k" "c" failEnv).events = false := by
  have h := start_failure_aborts_and_cleans idleState "k" "c" failEnv "Launch boom"
    rfl (by decide) (by decide) rfl
  exact ⟨rfl, h.1, h.2.1, h.2.2.2.2.2.1⟩

lemma onClose_records (cerr : Option String) (s : ServerState) (c : Option Int)
    (he : s.lastStreamError = none) (hc0 : c ≠ some 0) :
    (onClose cerr s c).1.lastStreamError =
      some ("FFmpeg exited unexpectedly with code " ++ codeStr c) := by
  have hcond : (c ≠ some 0 ∧ jsFalsyOpt s.lastStreamError = true) :=
    ⟨hc0, by simp [he, jsFalsyOpt]⟩
  simp [onClose, if_pos hcond, cleanup_fst]

lemma onClose_clears (cerr : Option String) (s : ServerState) (c : Option Int) :
    (onClose cerr s c).1.streamProcess = none ∧
    (onClose cerr s c).1.xvfbProcess = none ∧
    (onClose cerr s c).1.browserProcess = none := by
  refine ⟨?_, ?_, ?_⟩ <;> simp [onClose, cleanup_fst]

/-- C6: on the encoder exit notification, a nonzero (or null) exit code
with no recorded error records the generic message, which names the exit
code and contains the fragment the spec quotes; exit code `0` with no prior
fault leaves `lastStreamError` null; and cleanup runs regardless of the code
and of whether an error was already recorded. -/
theorem onClose_records_and_cleans (cerr : Option String) (s : ServerState)
    (c : Option Int) :
    (s.lastStreamError = none → c ≠ some 0 →
      (onClose cerr s c).1.lastStreamError =
        some ("FFmpeg exited unexpectedly with code " ++ codeStr c) ∧
      jsIncludes ("FFmpeg exited unexpectedly with code " ++ codeStr c)
        ("exited unexpectedly with code " ++ codeStr c) = true) ∧
    (s.lastStreamError = none → c = some 0 →
      (onClose cerr s c).1.lastStreamError = none) ∧
    (onClose cerr s c).1.streamProcess = none ∧
    (onClose cerr s c).1.xvfbProcess = none ∧
    (onClose cerr s c).1.browserProcess = none ∧
    CleanupAction.sweepStray ∈ (onClose cerr s c).2 := by
  refine ⟨?_, ?_, (onClose_clears cerr s c).1, (onClose_clears cerr s c).2.1,
    (onClose_clears cerr s c).2.2, ?_⟩
  · intro hle hc0
    exact ⟨onClose_records cerr s c hle hc0, exit_msg_contains (codeStr c)⟩
  · intro hle hc0
    subst hc0
    simp [onClose, cleanup_fst, hle]
  · simp only [onClose]
    exact cleanup_sweep cerr _

/-- C6 witness: on an active session with no recorded error, exit code `1`
records the generic message and code `0` leaves the error slot null. -/
theorem onClose_records_and_cleans_witness :
    activeState.lastStreamError = none ∧ (some 1 : Option Int) ≠ some 0 ∧
    (onClose none activeState (some 1)).1.lastStreamError =
      some ("FFmpeg exited unexpectedly with code " ++ codeStr (some 1)) ∧
    (onClose none activeState (some 0)).1.lastStreamError = none := by
  refine ⟨rfl, by decide, ?_, ?_⟩
  · exact ((onClose_records_and_cleans none activeState (some 1)).1 rfl (by decide)).1
  · exact (onClose_records_and_cleans none activeState (some 0)).2.1 rfl rfl

/-- C10: the exit handler records an error for every exit code other than
exactly `0` (the null code of a signal kill included), and a deliberate
`stop()` of an active session — whose cleanup force-kills the encoder, so
the close notification carries a null code — leaves a non-null
`lastStreamError` visible through a later status query even though no fault
occurred. -/
theorem stop_active_records_spurious_error (cerr : Option String)
    (s : ServerState) (p : Nat)
    (hp : s.streamProcess = some p) (he : s.lastStreamError = none) :
    CleanupAction.killEncoder p ∈ (apiStop cerr s).2 ∧
    (apiStop cerr s).1.lastStreamError = none ∧
    (∀ c : Option Int, c ≠ some 0 →
      ((onClose cerr ((apiStop cerr s).1) c).1.lastStreamError).isSome = true) ∧
    apiStatus ((onClose cerr ((apiStop cerr s).1) none).1) =
      { active := false,
        error := some ("FFmpeg exited unexpectedly with code " ++ codeStr none) } := by
  refine ⟨?_, ?_, ?_, ?_⟩
  · rw [apiStop, cleanup_snd]
    simp [encActions, hp]
  · rw [apiStop, cleanup_fst]
    exact he
  · intro c hc0
    have h1 : (apiStop cerr s).1.lastStreamError = none := by
      rw [apiStop, cleanup_fst]
      exact he
    rw [onClose_records cerr _ c h1 hc0]
    rfl
  · have h1 : (apiStop cerr s).1.lastStreamError = none := by
      rw [apiStop, cleanup_fst]
      exact he
    have h2 := onClose_records cerr ((apiStop cerr s).1) none h1 (by simp)
    have h3 := (onClose_clears cerr ((apiStop cerr s).1) none).1
    simp [apiStatus, h2, h3]

/-- C10 witness: stopping the concrete active session and delivering the
resulting null-code close notification leaves a spurious recorded error in
the status report. -/
theorem stop_active_records_spurious_error_witness :
    activeState.streamProcess = some 7 ∧ activeState.lastStreamError = none ∧
    apiStatus ((onClose none ((apiStop none activeState).1) none).1) =
      { active := false,
        error := some ("FFmpeg exited unexpectedly with code " ++ codeStr none) } :=
  ⟨rfl, rfl,
    (stop_active_records_spurious_error none activeState 7 rfl rfl).2.2.2⟩

/-- The state left behind by the data handler after a chunk matching `sig`:
every handle cleared by the triggered cleanup, and the recorded fault. -/
def faultedState (sig : String) : ServerState :=
  { streamProcess := none, xvfbProcess := none, browserProcess := none,
    lastStreamError := some ("Stream failed: " ++ sig) }

lemma processStderr_run (cerr : Option String) (s : ServerState)
    (lines : List String) :
    (processStderr cerr s lines).2 = (lines.filterMap matchSig).length ∧
    (processStderr cerr s lines).1 =
      (match (lines.filterMap matchSig).getLast? with
       | some sig => faultedState sig
       | none => s) := by
  induction lines generalizing s with
  | nil => exact ⟨rfl, rfl⟩
  | cons line rest ih =>
    cases hm : matchSig line with
    | none =>
      have hstep : onStderrData cerr s line = (s, false) := by
        simp [onStderrData, hm]
      have := ih s
      simp [processStderr, hstep, List.filterMap_cons, hm, this.1, this.2]
    | some sig =>
      have hstep : onStderrData cerr s line = (faultedState sig, true) := by
        simp [onStderrData, hm, cleanup_fst, faultedState]
      have ihs := ih (faultedState sig)
      cases hr : rest.filterMap matchSig with
      | nil =>
        rw [hr] at ihs
        simp [processStderr, hstep, List.filterMap_cons, hm, hr, ihs.1, ihs.2]
      | cons b bs =>
        rw [hr] at ihs
        have hlast : ((sig :: b :: bs).getLast? : Option String) = (b :: bs).getLast? :=
          List.getLast?_cons_cons
        simp [processStderr, hstep, List.filterMap_cons, hm, hr, ihs.1, ihs.2, hlast]
        refine ⟨by omega, ?_⟩
        cases hgl : (b :: bs).getLast? with
        | none => simp at hgl
        | some q => simp [hgl]

/-- C2 (amended): the data handler has no Done latch — it tests every
chunk.  Cleanup is triggered once per matching chunk (so exactly once only
when exactly one chunk matches), each matching chunk overwrites
`lastStreamError` with `"Stream failed: " + signature` for its own
signature, so after the run the error holds the signature of the last
matching chunk (that of the first chunk only when no later chunk also matches), a
later status query then reports `active = false` with an error containing
that signature, and a run with no matching chunk leaves the state
untouched. -/
theorem stderr_monitor_behavior (cerr : Option String) (s : ServerState)
    (lines : List String) :
    (processStderr cerr s lines).2 = (lines.filterMap matchSig).length ∧
    (∀ sig, (lines.filterMap matchSig).getLast? = some sig →
      (processStderr cerr s lines).1.lastStreamError =
        some ("Stream failed: " ++ sig) ∧
      apiStatus (processStderr cerr s lines).1 =
        { active := false, error := some ("Stream failed: " ++ sig) } ∧
      jsIncludes ("Stream failed: " ++ sig) sig = true) ∧
    (lines.filterMap matchSig = [] → (processStderr cerr s lines).1 = s) := by
  obtain ⟨hcount, hstate⟩ := processStderr_run cerr s lines
  refine ⟨hcount, ?_, ?_⟩
  · intro sig hlast
    rw [hlast] at hstate
    rw [hstate]
    exact ⟨rfl, rfl, jsIncludes_append_left "Stream failed: " sig⟩
  · intro hempty
    rw [hempty] at hstate
    simpa using hstate

/-- C2 witness: a single chunk containing "Authentication failed" while
active makes a later status query report inactive with that signature. -/
theorem stderr_monitor_behavior_witness :
    (["x Authentication failed y"].filterMap matchSig).getLast? =
      some "Authentication failed" ∧
    apiStatus (processStderr none activeState ["x Authentication failed y"]).1 =
      { active := false, error := some "Stream failed: Authentication failed" } ∧
    (processStderr none activeState ["x Authentication failed y"]).2 = 1 := by
  have h := stderr_monitor_behavior none activeState ["x Authentication failed y"]
  have h2 := h.2.1 "Authentication failed" (by decide)
  exact ⟨by decide, h2.2.1.trans (by decide), h.1.trans (by decide)⟩

/-- C2 counterexample: two chunks carrying different signatures — the
second is not ignored: it overwrites the recorded error with its own
signature and cleanup is triggered twice, so the original claim (cleanup
exactly once, later lines ignored, status error containing the first
signature) fails. -/
theorem stderr_monitor_second_line_not_ignored :
    (processStderr none activeState
      ["Authentication failed", "Connection refused"]).2 = 2 ∧
    (processStderr none activeState
      ["Authentication failed", "Connection refused"]).1.lastStreamError =
      some "Stream failed: Connection refused" ∧
    jsIncludes "Stream failed: Connection refused" "Authentication failed" = false := by
  decide

lemma isInfix_append_right {α : Type} {l xs : List α} (ys : List α)
    (h : l <:+: xs) : l <:+: xs ++ ys := by
  obtain ⟨a, b, rfl⟩ := h
  exact ⟨a, b ++ ys, by simp⟩

lemma ffmpegArgs_isInfix (u : String) {l : List String}
    (h : l <:+: ffmpegFixedArgs) : l <:+: ffmpegArgs u :=
  isInfix_append_right [u] h

/-- C8: every successful `start()` spawns the encoder with the fixed
argument vector for the resolved target, and that vector excludes the mouse
cursor from capture, uses the synthesized silent stereo 44.1 kHz audio
source, caps the video bitrate at 3000 kbps with a 6000 kbps buffer, fixes
the keyframe interval at twice the 30 fps frame rate, and encodes audio at
128 kbps / 44.1 kHz. -/
theorem ffmpeg_fixed_parameters (s : ServerState) (key content : String)
    (env : StartOutcomes) (hs : s.streamProcess = none)
    (hk : jsFalsy key = false) (hc : jsFalsy content = false)
    (hok : firstFailMsg env = none) :
    (apiStart s key content env).response = .ok ∧
    (∃ fpid, env.spawnFfmpeg = .ok fpid ∧
      Event.spawnFfmpeg fpid (ffmpegArgs (rtmpUrl key)) ∈
        (apiStart s key content env).events) ∧
    ["-draw_mouse", "0"] <:+: ffmpegArgs (rtmpUrl key) ∧
    ["-f", "lavfi", "-i", "anullsrc=channel_layout=stereo:sample_rate=44100"] <:+:
      ffmpegArgs (rtmpUrl key) ∧
    ["-maxrate", "3000k"] <:+: ffmpegArgs (rtmpUrl key) ∧
    ["-bufsize", "6000k"] <:+: ffmpegArgs (rtmpUrl key) ∧
    ["-framerate", "30"] <:+: ffmpegArgs (rtmpUrl key) ∧
    ["-g", toString (2 * 30)] <:+: ffmpegArgs (rtmpUrl key) ∧
    ["-c:a", "aac", "-b:a", "128k", "-ar", "44100"] <:+: ffmpegArgs (rtmpUrl key) := by
  obtain ⟨w, x, l, pg, f, ce⟩ := env
  cases w with
  | error m => simp [firstFailMsg] at hok
  | ok u =>
    cases x with
    | error m => simp [firstFailMsg] at hok
    | ok xpid =>
      cases l with
      | error m => simp [firstFailMsg] at hok
      | ok bpid =>
        cases pg with
        | error m => simp [firstFailMsg] at hok
        | ok pu =>
          cases f with
          | error m => simp [firstFailMsg] at hok
          | ok fpid =>
            refine ⟨?_, ⟨fpid, rfl, ?_⟩, ?_, ?_, ?_, ?_, ?_, ?_, ?_⟩
            · simp [apiStart, hs, hk, hc]
            · simp [apiStart, hs, hk, hc]
            · exact ffmpegArgs_isInfix _ (by decide)
            · exact ffmpegArgs_isInfix _ (by decide)
            · exact ffmpegArgs_isInfix _ (by decide)
            · exact ffmpegArgs_isInfix _ (by decide)
            · exact ffmpegArgs_isInfix _ (by decide)
            · exact ffmpegArgs_isInfix _ (by decide)
            · exact ffmpegArgs_isInfix _ (by decide)

/-- C8 witness: the concrete all-success start responds ok and its encoder
argument vector carries the capped bitrate. -/
theorem ffmpeg_fixed_parameters_witness :
    jsFalsy "KEY" = false ∧ firstFailMsg happyEnv = none ∧
    (apiStart idleState "KEY" "<p>hi</p>" happyEnv).response = .ok ∧
    ["-maxrate", "3000k"] <:+: ffmpegArgs (rtmpUrl "KEY") := by
  have h := ffmpeg_fixed_parameters idleState "KEY" "<p>hi</p>" happyEnv
    rfl (by decide) (by decide) rfl
  exact ⟨by decide, rfl, h.1, h.2.2.2.2.1⟩

/-- C9: the status report is active exactly when the encoder handle is
held and carries the recorded error; the display and renderer handles have
no influence on it; and during a startup that has reached the page-setup
phase (display and renderer live, encoder not yet spawned) the suspended
state reports inactive. -/
theorem status_tracks_encoder_only :
    (∀ s : ServerState, (apiStatus s).active = s.streamProcess.isSome ∧
      (apiStatus s).error = s.lastStreamError) ∧
    (∀ (s : ServerState) (x b : Option Nat),
      apiStatus { s with xvfbProcess := x, browserProcess := b } = apiStatus s) ∧
    (∀ (s : ServerState) (key content : String) (env : StartOutcomes)
      (xpid bpid : Nat),
      s.streamProcess = none → jsFalsy key = false → jsFalsy content = false →
      env.writeHtml = .ok () → env.spawnXvfb = .ok xpid →
      env.launchBrowser = .ok bpid →
      ∃ w, w ∈ (apiStart s key content env).waitStates ∧
        w.xvfbProcess = some xpid ∧ w.browserProcess = some bpid ∧
        w.streamProcess = none ∧ (apiStatus w).active = false) := by
  refine ⟨fun s => ⟨rfl, rfl⟩, fun s x b => rfl, ?_⟩
  intro s key content env xpid bpid hs hk hc hw hx hl
  obtain ⟨w, x, l, pg, f, ce⟩ := env
  simp only at hw hx hl
  subst hw
  subst hx
  subst hl
  refine ⟨{ s with lastStreamError := none, xvfbProcess := some xpid, browserProcess := some bpid },
    ?_, rfl, rfl, hs, by simp [apiStatus, hs]⟩
  cases pg with
  | error m => simp [apiStart, failStart, hs, hk, hc]
  | ok pu =>
    cases f with
    | error m => simp [apiStart, failStart, hs, hk, hc]
    | ok fpid => simp [apiStart, hs, hk, hc]

/-- C9 witness: in the concrete all-success start, the page-setup
suspension state has the display and renderer live yet reports inactive. -/
theorem status_tracks_encoder_only_witness :
    ∃ w, w ∈ (apiStart idleState "KEY" "<p>hi</p>" happyEnv).waitStates ∧
      w.xvfbProcess = some 11 ∧ w.browserProcess = some 22 ∧
      w.streamProcess = none ∧ (apiStatus w).active = false :=
  status_tracks_encoder_only.2.2 idleState "KEY" "<p>hi</p>" happyEnv 11 22
    rfl (by decide) (by decide) rfl rfl rfl

end Gtop
